import Mathlib

/-!
Verification of the capture/OCR/translate orchestration subsystem of the
OPERATION_UMA repository against its natural-language specification.

The Python modules are shallowly embedded as executable Lean definitions:

* `src/src/core/history_manager.py` (`HistoryManager`) — the bounded
  translation cache / history;
* `src/src/core/ocr_worker.py` (`OCRWorker.run`, step 3) — the cache lookup
  and translation step of a capture cycle;
* `src/src/translation_engines/google_cloud_v3_engine.py`
  (`GoogleCloudV3Engine.translate`) and the legacy
  `src/ocr_worker.py` (`OCRWorker.translate_text_v3`) — the Google Cloud
  translation paths, instrumented with a trace of the API endpoints called;
* `src/src/core/translation_worker.py` (`TranslationWorker.run`) and
  `src/src/gui/handlers/ocr_handler.py` (`OcrHandler`) — the re-translation
  flow and the capture state machine;
* `src/src/gui/handlers/live_mode_handler.py` (`LiveModeHandler`) — the
  live-mode timer.

Stateful handler code is modelled as explicit state passing: each Qt slot or
handler method becomes a function from the handler's state (the fields it
reads and writes) to the updated state, and signal emissions become returned
values.  Network clients are parameters (oracle functions), and the calls a
function makes to them are returned as an explicit trace.
-/

namespace OperationUMA

/-! ## HistoryManager (`src/src/core/history_manager.py`)

`HistoryManager.__init__` stores `max_items = max(max_items, 0)` and a
`collections.deque(maxlen=self.max_items)`.  The deque is represented as a
list, oldest entry first; pushing onto a full deque drops from the left. -/

structure HistoryManager where
  maxItems : Nat
  deque : List (String × String)
deriving DecidableEq

/-- `HistoryManager.__init__(max_items)`: `self.max_items = max(max_items, 0)`,
empty deque (the initial `load_history` on a missing file leaves it empty). -/
def HistoryManager.init (maxItems : Int) : HistoryManager :=
  { maxItems := maxItems.toNat, deque := [] }

/-- An append to a `collections.deque(maxlen=m)`: the new element goes to the
right end and, if the bound is exceeded, elements fall off the left end. -/
def dequePush (maxItems : Nat) (d : List (String × String)) (x : String × String) :
    List (String × String) :=
  let d' := d ++ [x]
  if d'.length ≤ maxItems then d' else d'.drop (d'.length - maxItems)

/-- `HistoryManager.add_item(ocr_text, translated_text)`: returns unchanged when
`max_items` is 0; builds `result_entry = (str(ocr_text or ""), str(translated_text or ""))`
(identity on strings) and appends it unless the deque's last element equals the
whole entry (`self.history_deque[-1] != result_entry`). -/
def HistoryManager.add_item (h : HistoryManager) (ocrText translatedText : String) :
    HistoryManager :=
  if h.maxItems = 0 then h
  else if h.deque.getLast? = some (ocrText, translatedText) then h
  else { h with deque := dequePush h.maxItems h.deque (ocrText, translatedText) }

/-- A sequence of `add_item` calls starting from a freshly constructed manager. -/
def HistoryManager.run_adds (maxItems : Int) (records : List (String × String)) :
    HistoryManager :=
  records.foldl (fun h r => h.add_item r.1 r.2) (HistoryManager.init maxItems)

/-! ### Lemmas about the deque -/

theorem dequePush_length (m : Nat) (d : List (String × String)) (x : String × String) :
    (dequePush m d x).length = min (d.length + 1) m := by
  simp only [dequePush]
  split <;> (simp_all [List.length_append]; try omega)

theorem dequePush_chain_ne (m : Nat) (d : List (String × String)) (x : String × String)
    (hd : d.Chain' (· ≠ ·)) (hx : d.getLast? ≠ some x) :
    (dequePush m d x).Chain' (· ≠ ·) := by
  have happ : (d ++ [x]).Chain' (· ≠ ·) := by
    rw [List.chain'_append]
    refine ⟨hd, List.chain'_singleton x, ?_⟩
    intro a ha b hb
    simp only [List.head?_cons, Option.mem_def, Option.some.injEq] at hb
    subst hb
    intro hab
    exact hx (by rw [← hab]; exact ha)
  simp only [dequePush]
  split
  · exact happ
  · exact happ.drop _

/-- The bound and the no-consecutive-duplicate-entry property are preserved by
one `add_item` call. -/
theorem add_item_preserves_inv (h : HistoryManager)
    (hlen : h.deque.length ≤ h.maxItems) (hchain : h.deque.Chain' (· ≠ ·))
    (o t : String) :
    (h.add_item o t).deque.length ≤ (h.add_item o t).maxItems ∧
    (h.add_item o t).deque.Chain' (· ≠ ·) := by
  simp only [HistoryManager.add_item]
  split
  · exact ⟨hlen, hchain⟩
  · split
    · exact ⟨hlen, hchain⟩
    · rename_i hzero hlast
      constructor
      · show (dequePush h.maxItems h.deque (o, t)).length ≤ h.maxItems
        rw [dequePush_length]
        exact Nat.min_le_right _ _
      · exact dequePush_chain_ne _ _ _ hchain hlast

/-! ## OCRWorker translation step (`src/src/core/ocr_worker.py`, `run`, step 3)

The capture and OCR provider steps (1–2) end, on success, with a recognized
string that the Python code obtains via `.strip()` (both the Google Vision and
the OCR.space branches strip the provider's text).  We model the run from that
point: the translation step and the `finished` signal emission. -/

/-- Whitespace characters removed by Python's `str.strip()` (the ASCII ones). -/
def isPyWhitespace (c : Char) : Bool :=
  c = ' ' || c = '\t' || c = '\n' || c = '\r' || c = '\x0b' || c = '\x0c'

/-- Python's `str.strip()`: drop whitespace from both ends. -/
def pyStrip (s : String) : String :=
  ⟨((s.data.dropWhile isPyWhitespace).reverse.dropWhile isPyWhitespace).reverse⟩

/-- `OCRWorker._build_history_lookup`: the dict comprehension
`{entry[0]: entry[1] for entry in self.history_data}` over the history
snapshot; a later entry with the same key overwrites an earlier one, so the
lookup returns the value of the last matching entry. -/
def buildHistoryLookup (history : List (String × String)) (key : String) :
    Option String :=
  (history.reverse.find? (fun e => e.1 == key)).map (·.2)

/-- Outcome of one call to a translation engine's `translate` method, as seen
by the worker's `try`/`except` blocks: a normal return, a raised
`TranslationError`, or an unexpected exception (identified by
`type(e).__name__`). -/
inductive EngineReply where
  | ok (translated : String)
  | translationError (reason : String)
  | unexpectedError (exceptionName : String)
deriving DecidableEq

/-- A translation engine instance held by a worker: its class name
(`type(self.translation_engine).__name__`) and the behavior of its
`translate(text, target_language_code)` method. -/
structure EngineSpec where
  name : String
  behavior : String → String → EngineReply

/-- The worker configuration fields consulted by step 3 of `OCRWorker.run`:
the selected engine key, the credential / key settings (Python-falsy is the
empty string) and the engine instance (`none` when
`_initialize_translation_engine` left `self.translation_engine = None`). -/
structure WorkerConfig where
  selectedEngineKey : String
  googleCredentialsPath : String
  deeplApiKey : String
  engine : Option EngineSpec

/-- `config.AVAILABLE_ENGINES` from `src/src/config.py`. -/
def availableEngines : List (String × String) :=
  [("google_cloud_v3", "Google Cloud API v3"),
   ("googletrans", "Google Translate (Unofficial)"),
   ("deepl_free", "DeepL Free/Pro")]

/-- `config.AVAILABLE_ENGINES.get(key, key)`. -/
def engineDisplayName (key : String) : String :=
  ((availableEngines.find? (fun e => e.1 == key)).map (·.2)).getD key

/-- The `else` branch of step 3 when no engine instance is available: the
`elif` chain in `OCRWorker.run` (the two library-missing branches cannot fire
when the engine classes imported, which is the situation modelled here). -/
def unavailableEngineMessage (cfg : WorkerConfig) : String :=
  let name := engineDisplayName cfg.selectedEngineKey
  if cfg.selectedEngineKey = "deepl_free" ∧ cfg.deeplApiKey = "" then
    "[" ++ name ++ " Error: API Key Missing]"
  else if cfg.selectedEngineKey = "google_cloud_v3" ∧ cfg.googleCredentialsPath = "" then
    "[" ++ name ++ " Error: Credentials Missing]"
  else
    "[" ++ name ++ " Engine Unavailable]"

/-- Result of step 3 of `OCRWorker.run`, instrumented with which branch ran:
`cacheHit` is true exactly in the `cached_translation is not None` branch (the
branch in which the legacy worker `src/ocr_worker.py` sets `cache_hit = True`),
and `engineCalled` is true exactly when `self.translation_engine.translate`
was invoked. -/
structure TranslationOutcome where
  translatedText : String
  cacheHit : Bool
  engineCalled : Bool
deriving DecidableEq

/-- Step 3 of `OCRWorker.run` (`src/src/core/ocr_worker.py` lines 318–350). -/
def translationStep (cfg : WorkerConfig) (lookup : String → Option String)
    (ocrResult targetLanguageCode : String) : TranslationOutcome :=
  if ocrResult = "" then
    { translatedText := "", cacheHit := false, engineCalled := false }
  else
    match lookup ocrResult with
    | some cached =>
      { translatedText := cached, cacheHit := true, engineCalled := false }
    | none =>
      match cfg.engine with
      | some eng =>
        match eng.behavior ocrResult targetLanguageCode with
        | .ok t =>
          { translatedText := t, cacheHit := false, engineCalled := true }
        | .translationError reason =>
          { translatedText := "[" ++ eng.name ++ " Error: " ++ reason ++ "]",
            cacheHit := false, engineCalled := true }
        | .unexpectedError exName =>
          { translatedText := "[Translation Error: Unexpected " ++ exName ++ "]",
            cacheHit := false, engineCalled := true }
      | none =>
        { translatedText := unavailableEngineMessage cfg,
          cacheHit := false, engineCalled := false }

/-- The two signals an `OCRWorker` can emit at the end of `run`. -/
inductive WorkerSignal where
  | finished (ocrText translatedText : String)
  | error (message : String)
deriving DecidableEq

/-- A completed worker run together with the branch instrumentation. -/
structure WorkerRun where
  signal : WorkerSignal
  cacheHit : Bool
  engineCalled : Bool
deriving DecidableEq

/-- `OCRWorker.run` from the point where capture and the OCR provider call
succeeded with raw text `rawProviderText` (the provider branches then strip
it into `ocr_result`), through step 3, to the `finished` emission in step 4. -/
def workerRunFromOcr (cfg : WorkerConfig) (historySnapshot : List (String × String))
    (rawProviderText targetLanguageCode : String) : WorkerRun :=
  let ocrResult := pyStrip rawProviderText
  let o := translationStep cfg (buildHistoryLookup historySnapshot)
    ocrResult targetLanguageCode
  { signal := .finished ocrResult o.translatedText,
    cacheHit := o.cacheHit, engineCalled := o.engineCalled }

/-! ## Google Cloud translation paths

Both the current engine (`GoogleCloudV3Engine.translate` in
`src/src/translation_engines/google_cloud_v3_engine.py`) and the legacy worker
method (`OCRWorker.translate_text_v3` in `src/ocr_worker.py`) talk to a
`TranslationServiceClient`.  The client is a parameter, and each embedded
function returns the ordered trace of the endpoints it invoked.  Python's
`html.unescape` is likewise a parameter (`unescape`); no claim depends on its
behavior. -/

/-- One element of `detect_response.languages`. -/
structure DetectedLanguage where
  languageCode : String
  confidence : ℚ
deriving DecidableEq

/-- The two endpoints used: `detect_language` returns `response.languages`;
`translate_text(contents, target, source?)` returns the translated text of
`translations[0]`, or `none` when `translations` is empty. -/
structure CloudTranslateClient where
  detectLanguage : String → List DetectedLanguage
  translateText : String → String → Option String → Option String

/-- Trace entry: which API endpoint a call hit. -/
inductive ApiCall where
  | detectLanguage
  | translateEndpoint
deriving DecidableEq

/-- Return value of `GoogleCloudV3Engine.translate`: a string, or a raised
`TranslationError` / `ValueError` with its message. -/
inductive EngineResult where
  | ok (translated : String)
  | error (message : String)
deriving DecidableEq

/-- `GoogleCloudV3Engine.translate(text, target_language_code,
source_language_code=None)`: fails when unavailable or the target is empty;
returns `""` for empty text; otherwise detects the source language when none
was supplied (taking `detect_response.languages[0]`), then always issues the
`translate_text` call, passing the detected (or provided) source code when
there is one. -/
def gcloudV3Translate (unescape : String → String) (client : CloudTranslateClient)
    (available : Bool) (text targetLanguageCode : String)
    (sourceLanguageCode : Option String) : EngineResult × List ApiCall :=
  if !available then
    (.error "Google Cloud V3 Engine not available.", [])
  else if targetLanguageCode = "" then
    (.error "Target language code cannot be empty.", [])
  else if text = "" then
    (.ok "", [])
  else
    let provided := sourceLanguageCode.getD ""
    let step1 : Option String × List ApiCall :=
      if provided = "" then
        match client.detectLanguage text with
        | [] => (none, [ApiCall.detectLanguage])
        | l :: _ => (some l.languageCode, [ApiCall.detectLanguage])
      else
        (some provided, [])
    match client.translateText text targetLanguageCode step1.1 with
    | none =>
      (.error "Translation failed: No result from Google V3 API.",
       step1.2 ++ [ApiCall.translateEndpoint])
    | some t =>
      (.ok (unescape t), step1.2 ++ [ApiCall.translateEndpoint])

/-- Python's `max(languages, key=lambda lang: lang.confidence)` on a list:
the first element of maximal confidence (later elements replace the running
maximum only when strictly greater). -/
def pythonMaxByConfidence : List DetectedLanguage → Option DetectedLanguage
  | [] => none
  | l :: ls =>
    some (ls.foldl (fun best x => if best.confidence < x.confidence then x else best) l)

/-- Legacy `OCRWorker.translate_text_v3(text, target_language_code)`
(`src/ocr_worker.py` lines 139–192): detects the source language (most
confident candidate, `"und"` when detection returned nothing) and returns the
input text unchanged — without calling `translate_text` — when the detected
source equals the target and is not `"und"`; otherwise translates. -/
def translateTextV3 (unescape : String → String) (client : CloudTranslateClient)
    (clientReady : Bool) (text targetLanguageCode : String) :
    String × List ApiCall :=
  if text = "" then ("", [])
  else if !clientReady then ("[Translation Error: Client not ready]", [])
  else
    let detectedLanguage :=
      match pythonMaxByConfidence (client.detectLanguage text) with
      | none => "und"
      | some best => best.languageCode
    if detectedLanguage = targetLanguageCode ∧ detectedLanguage ≠ "und" then
      (text, [ApiCall.detectLanguage])
    else
      match client.translateText text targetLanguageCode
          (if detectedLanguage = "und" then none else some detectedLanguage) with
      | none =>
        ("[Translation Failed: No result from API]",
         [ApiCall.detectLanguage, ApiCall.translateEndpoint])
      | some t =>
        (unescape t, [ApiCall.detectLanguage, ApiCall.translateEndpoint])

/-- A concrete client for counterexamples and witnesses: detection always
reports `"en"` with confidence 1, translation always returns one result. -/
def enClient : CloudTranslateClient :=
  { detectLanguage := fun _ => [{ languageCode := "en", confidence := 1 }],
    translateText := fun _ _ _ => some "translated output" }

/-! ## OcrHandler capture state machine (`src/src/gui/handlers/ocr_handler.py`)

`trigger_ocr` runs synchronously on the control thread.  Its net effect on
the handler state, per call: if `self.ocr_running` it returns at once; if the
prerequisite check fails it returns at once; if an internal setup step fails
(missing `ui_manager`, invalid geometry, missing settings) the handler sets
`ocr_running = True` and then `_handle_internal_error` resets it to `False`
before the call returns, spawning nothing — net effect: unchanged; otherwise
it sets `ocr_running = True` and spawns exactly one worker thread.
`_on_thread_finished` (connected to `thread.finished`, which fires after the
worker emitted `finished` or `error`) calls `_reset_state_and_emit(False)`. -/

structure CaptureState where
  ocrRunning : Bool
  activeWorkers : Nat
deriving DecidableEq

/-- Net effect of one `OcrHandler.trigger_ocr()` call.  `prereqsOk` is the
result of `check_prerequisites`; `setupOk` is whether the region / settings
setup steps succeeded. -/
def triggerOcr (prereqsOk setupOk : Bool) (s : CaptureState) : CaptureState :=
  if s.ocrRunning then s
  else if !prereqsOk then s
  else if !setupOk then s
  else { ocrRunning := true, activeWorkers := s.activeWorkers + 1 }

/-- `OcrHandler._on_thread_finished`: the worker thread ended;
`_reset_state_and_emit(False)` clears `ocr_running` and the references. -/
def workerThreadFinished (s : CaptureState) : CaptureState :=
  { ocrRunning := false, activeWorkers := s.activeWorkers - 1 }

/-- Control-thread events that drive the capture state machine. -/
inductive CaptureEvent where
  | trigger (prereqsOk setupOk : Bool)
  | workerDone
deriving DecidableEq

def captureStep (s : CaptureState) : CaptureEvent → CaptureState
  | .trigger prereqsOk setupOk => triggerOcr prereqsOk setupOk s
  | .workerDone => workerThreadFinished s

/-- The handler starts idle (`self.ocr_running = False`, no thread). -/
def captureInit : CaptureState :=
  { ocrRunning := false, activeWorkers := 0 }

def captureRun (events : List CaptureEvent) : CaptureState :=
  events.foldl captureStep captureInit

/-! ## LiveModeHandler (`src/src/gui/handlers/live_mode_handler.py`) -/

structure LiveModeState where
  timerActive : Bool
  timerIntervalMs : Int
deriving DecidableEq

/-- `LiveModeHandler.start_timer()`: returns `True` at once when already
active; refuses when the prerequisite check fails; otherwise arms the timer
with `interval_ms = max(1000, interval_sec * 1000)` and marks it active. -/
def startTimer (prereqsOk : Bool) (intervalSec : Int) (s : LiveModeState) :
    LiveModeState × Bool :=
  if s.timerActive then (s, true)
  else if !prereqsOk then (s, false)
  else ({ timerActive := true, timerIntervalMs := max 1000 (intervalSec * 1000) }, true)

/-- `LiveModeHandler.stop_timer()`: disarms the timer when active, else no-op. -/
def stopTimer (s : LiveModeState) : LiveModeState :=
  if !s.timerActive then s else { s with timerActive := false }

/-- The live-mode scheduler together with the capture handler it drives
(`self._timer.timeout.connect(self.ocr_handler.trigger_ocr)`). -/
structure LiveSystemState where
  live : LiveModeState
  capture : CaptureState
deriving DecidableEq

/-- One timer tick: the `QTimer.timeout` signal calls
`OcrHandler.trigger_ocr` and nothing else; no code on this path reads or
writes the `LiveModeHandler` state. -/
def liveTick (prereqsOk setupOk : Bool) (s : LiveSystemState) : LiveSystemState :=
  { s with capture := triggerOcr prereqsOk setupOk s.capture }

/-- A concrete mid-session state: live mode armed, capture idle. -/
def liveRunningState : LiveSystemState :=
  { live := { timerActive := true, timerIntervalMs := 5000 },
    capture := captureInit }

/-! ## Completion handling (`OcrHandler._on_worker_done` and
`MainWindow.on_ocr_done`, `src/src/gui/main_window.py` lines 348–356)

On the worker's `finished(ocr_text, translated_text)` signal the handler
stores `last_ocr_text = ocr_text` only when `ocr_text` is non-empty, then the
window adds `(ocr_text, translated_text)` to the history only when `ocr_text`
is non-empty. -/

structure CompletionState where
  history : HistoryManager
  lastOcrText : String
deriving DecidableEq

def onOcrWorkerDone (st : CompletionState) (ocrText translatedText : String) :
    CompletionState :=
  { history := if ocrText = "" then st.history
               else st.history.add_item ocrText translatedText,
    lastOcrText := if ocrText = "" then st.lastOcrText else ocrText }

/-! ## Re-translation flow (`OcrHandler.request_retranslation` and
`TranslationWorker.run`, `src/src/core/translation_worker.py`) -/

/-- Signals observable from one re-translation request: the synchronous
refusals in `request_retranslation`, or the worker's `finished` /  `error`
emission (forwarded unchanged by `_on_translation_worker_done` /
`_on_translation_worker_error`). -/
inductive RetransSignal where
  | refusedNoText
  | refusedBusy
  | refusedConfig
  | completed (originalText newTranslation : String)
  | errored (message : String)
deriving DecidableEq

/-- `TranslationWorker.run()`: empty text yields `finished(text, "")`; a
missing engine raises `TranslationError` caught by the outer handler as
`Worker Error: ...`; otherwise one engine call, with `TranslationError` and
unexpected exceptions emitted as `error` signals. -/
def translationWorkerRun (engine : Option EngineSpec) (engineKey : String)
    (textToTranslate targetLanguageCode : String) : RetransSignal :=
  if textToTranslate = "" then
    .completed textToTranslate ""
  else
    match engine with
    | none =>
      .errored ("Worker Error: " ++ engineDisplayName engineKey ++ " Engine Unavailable")
    | some eng =>
      match eng.behavior textToTranslate targetLanguageCode with
      | .ok t => .completed textToTranslate t
      | .translationError reason =>
        .errored ("Re-translate Error [" ++ eng.name ++ "]: " ++ reason)
      | .unexpectedError exName =>
        .errored ("Re-translate Error: Unexpected " ++ exName)

/-- The handler state read and written by the re-translation flow.  The flow
receives no history data: `TranslationWorker.__init__` takes only the text,
the target language, the engine key and the credentials. -/
structure RetransState where
  history : HistoryManager
  lastOcrText : String
  translationInFlight : Bool
deriving DecidableEq

/-- `OcrHandler.request_retranslation(new_target_language_code)` followed by
the worker run and the completion slots.  The refusal branches return
synchronously; otherwise the worker runs and, on either signal, the thread
finishes and `_on_translation_thread_finished` clears the references.
`_on_translation_worker_done` only re-emits `retranslationCompleted`, and
`MainWindow.on_retranslation_done` renders the result without touching the
history. -/
def requestRetranslation (st : RetransState) (engine : Option EngineSpec)
    (engineKey : String) (newTargetLanguageCode : String) :
    RetransState × RetransSignal :=
  if st.lastOcrText = "" then (st, .refusedNoText)
  else if st.translationInFlight then (st, .refusedBusy)
  else if engineKey = "" then (st, .refusedConfig)
  else
    ({ st with translationInFlight := false },
     translationWorkerRun engine engineKey st.lastOcrText newTargetLanguageCode)

/-- A concrete engine whose every call raises `TranslationError("QuotaExceeded")`. -/
def quotaEngine : EngineSpec :=
  { name := "GoogleCloudV3Engine",
    behavior := fun _ _ => .translationError "QuotaExceeded" }

/-- A concrete worker configuration holding `quotaEngine`. -/
def quotaConfig : WorkerConfig :=
  { selectedEngineKey := "google_cloud_v3",
    googleCredentialsPath := "creds.json",
    deeplApiKey := "",
    engine := some quotaEngine }

theorem foldl_add_item_inv (records : List (String × String)) (h : HistoryManager)
    (hlen : h.deque.length ≤ h.maxItems) (hchain : h.deque.Chain' (· ≠ ·)) :
    (records.foldl (fun h r => h.add_item r.1 r.2) h).deque.length ≤
      (records.foldl (fun h r => h.add_item r.1 r.2) h).maxItems ∧
    (records.foldl (fun h r => h.add_item r.1 r.2) h).deque.Chain' (· ≠ ·) := by
  induction records generalizing h with
  | nil => exact ⟨hlen, hchain⟩
  | cons r rs ih =>
    rw [List.foldl_cons]
    have hstep := add_item_preserves_inv h hlen hchain r.1 r.2
    exact ih _ hstep.1 hstep.2

theorem run_adds_inv (maxItems : Int) (records : List (String × String)) :
    (HistoryManager.run_adds maxItems records).deque.length ≤
      (HistoryManager.run_adds maxItems records).maxItems ∧
    (HistoryManager.run_adds maxItems records).deque.Chain' (· ≠ ·) := by
  exact foldl_add_item_inv records (HistoryManager.init maxItems)
    (by simp [HistoryManager.init]) (by simp [HistoryManager.init])

/-- `GoogleCloudV3Engine.translate` with no source language issues the detect
call and then always the translate call, whatever the client answers. -/
theorem gcloudV3_always_calls_translate (unescape : String → String)
    (client : CloudTranslateClient) (text target : String)
    (htext : text ≠ "") (htarget : target ≠ "") :
    (gcloudV3Translate unescape client true text target none).2 =
      [ApiCall.detectLanguage, ApiCall.translateEndpoint] := by
  rw [gcloudV3Translate]
  simp only [Bool.not_true, Bool.false_eq_true, if_false, htarget, htext, if_neg,
    Option.getD_none, ite_true, if_true]
  cases hd : client.detectLanguage text with
  | nil =>
    cases ht : client.translateText text target none with
    | none => simp [hd, ht]
    | some t => simp [hd, ht]
  | cons l ls =>
    cases ht : client.translateText text target (some l.languageCode) with
    | none => simp [hd, ht]
    | some t => simp [hd, ht]

/-! ## Claim theorems -/

/-- C1 (counterexample): `GoogleCloudV3Engine.translate("hello", "en")` with a
client that detects `"en"` — the requested target — still issues the call to
the translate endpoint, contradicting the claim that the engine returns the
input unchanged with zero calls to the translate endpoint. -/
theorem C1_gcloudV3_counterexample :
    (gcloudV3Translate id enClient true "hello" "en" none).2 =
      [ApiCall.detectLanguage, ApiCall.translateEndpoint] ∧
    ApiCall.translateEndpoint ∈ (gcloudV3Translate id enClient true "hello" "en" none).2 := by
  constructor <;> decide

/-- C1 (amended): the detect-then-skip short-circuit lives in the legacy
worker method `OCRWorker.translate_text_v3` (`src/ocr_worker.py`): when the
most confident detected language equals the requested target and is not
`"und"`, it returns the input text unchanged having called only the detect
endpoint.  The current `GoogleCloudV3Engine.translate` has no such
short-circuit: after detection it always calls the translate endpoint. -/
theorem C1_shortCircuit_legacy_only (unescape : String → String)
    (client : CloudTranslateClient) (text target : String) (best : DetectedLanguage)
    (htext : text ≠ "") (htarget : target ≠ "")
    (hbest : pythonMaxByConfidence (client.detectLanguage text) = some best)
    (hcode : best.languageCode = target) (hund : target ≠ "und") :
    translateTextV3 unescape client true text target = (text, [ApiCall.detectLanguage]) ∧
    (gcloudV3Translate unescape client true text target none).2 =
      [ApiCall.detectLanguage, ApiCall.translateEndpoint] := by
  refine ⟨?_, gcloudV3_always_calls_translate unescape client text target htext htarget⟩
  simp [translateTextV3, htext, hbest, hcode, hund]

/-- C1 witness: the legacy short-circuit at concrete inputs. -/
theorem C1_shortCircuit_legacy_only_witness :
    translateTextV3 id enClient true "hola" "en" = ("hola", [ApiCall.detectLanguage]) ∧
    (gcloudV3Translate id enClient true "hola" "en" none).2 =
      [ApiCall.detectLanguage, ApiCall.translateEndpoint] :=
  C1_shortCircuit_legacy_only id enClient "hola" "en"
    { languageCode := "en", confidence := 1 }
    (by decide) (by decide) rfl rfl (by decide)

/-- C2 (counterexample): live mode armed, capture idle, prerequisites now
false — the tick leaves the timer armed (`_is_timer_active` still `True`), so
the scheduler is not in the Stopped state after the failed tick. -/
theorem C2_tick_prereq_fail_counterexample :
    liveTick false true liveRunningState = liveRunningState ∧
    (liveTick false true liveRunningState).live.timerActive ≠ false := by
  constructor <;> decide

/-- C2 (amended): a tick whose prerequisite re-check fails is a complete
no-op — no worker is spawned and the live-mode scheduler state is unchanged,
the timer staying armed; the timer is disarmed only by an explicit
`stop_timer`/`stop` call. -/
theorem C2_tick_prereq_fail_noop :
    ∀ (s : LiveSystemState) (setupOk : Bool),
    liveTick false setupOk s = s ∧ (stopTimer s.live).timerActive = false := by
  intro s setupOk
  constructor
  · show ({ s with capture := triggerOcr false setupOk s.capture }) = s
    have h : triggerOcr false setupOk s.capture = s.capture := by
      unfold triggerOcr
      split <;> simp
    rw [h]
  · unfold stopTimer
    split <;> simp_all

/-- C3 (counterexample): recording `("a", "x")` then `("a", "y")` produces two
consecutive entries with identical sourceText — the second record is appended
because `add_item` compares the whole `(sourceText, translatedText)` pair, not
the sourceText alone. -/
theorem C3_duplicate_source_counterexample :
    (HistoryManager.run_adds 5 [("a", "x"), ("a", "y")]).deque =
      [("a", "x"), ("a", "y")] ∧
    ¬ (HistoryManager.run_adds 5 [("a", "x"), ("a", "y")]).deque.Chain'
        (fun p q => p.1 ≠ q.1) := by
  have hd : (HistoryManager.run_adds 5 [("a", "x"), ("a", "y")]).deque =
      [("a", "x"), ("a", "y")] := by decide
  refine ⟨hd, ?_⟩
  intro h
  rw [hd, List.chain'_cons] at h
  exact h.1 rfl

/-- C3 (amended): for every capacity N and sequence of Record calls the
history holds at most N entries (evicting the oldest when exceeded), and a
Record whose entire (sourceText, translatedText) pair equals the most recent
entry is not appended, so no two consecutive entries are identical pairs —
consecutive entries may however share a sourceText when the translations
differ. -/
theorem C3_bounded_no_consecutive_duplicate_pairs :
    ∀ (maxItems : Int) (records : List (String × String)),
    (HistoryManager.run_adds maxItems records).deque.length ≤
      (HistoryManager.run_adds maxItems records).maxItems ∧
    (HistoryManager.run_adds maxItems records).deque.Chain' (· ≠ ·) :=
  run_adds_inv

/-- Auxiliary invariant: along any control-thread event sequence the number of
live worker threads is 1 exactly while `ocr_running` and 0 otherwise. -/
theorem captureStep_inv (s : CaptureState)
    (hs : s.activeWorkers = if s.ocrRunning then 1 else 0) (e : CaptureEvent) :
    (captureStep s e).activeWorkers = if (captureStep s e).ocrRunning then 1 else 0 := by
  cases e with
  | trigger p q =>
    simp only [captureStep, triggerOcr]
    split_ifs <;> simp_all
  | workerDone =>
    simp only [captureStep, workerThreadFinished]
    split_ifs at hs <;> simp_all

theorem captureRun_inv (events : List CaptureEvent) :
    (captureRun events).activeWorkers = if (captureRun events).ocrRunning then 1 else 0 := by
  suffices h : ∀ s : CaptureState, s.activeWorkers = (if s.ocrRunning then 1 else 0) →
      (events.foldl captureStep s).activeWorkers =
        if (events.foldl captureStep s).ocrRunning then 1 else 0 by
    exact h captureInit (by simp [captureInit])
  induction events with
  | nil => intro s hs; exact hs
  | cons e es ih =>
    intro s hs
    rw [List.foldl_cons]
    exact ih _ (captureStep_inv s hs e)

/-- C4: for every sequence of control-thread events at most one `OCRWorker`
is active; a `trigger_ocr` while `ocr_running` is a no-op (nothing queued, no
second worker); and the only event that takes the handler from Running to
Idle is the worker thread finishing. -/
theorem C4_at_most_one_worker :
    (∀ events : List CaptureEvent, (captureRun events).activeWorkers ≤ 1) ∧
    (∀ (s : CaptureState) (p q : Bool), s.ocrRunning = true → triggerOcr p q s = s) ∧
    (∀ (s : CaptureState) (e : CaptureEvent),
      s.ocrRunning = true → (captureStep s e).ocrRunning = false →
      e = CaptureEvent.workerDone) := by
  refine ⟨?_, ?_, ?_⟩
  · intro events
    have h := captureRun_inv events
    split_ifs at h <;> omega
  · intro s p q hrun
    simp [triggerOcr, hrun]
  · intro s e hrun hstep
    cases e with
    | trigger p q =>
      exfalso
      have h : captureStep s (CaptureEvent.trigger p q) = s := by
        simp [captureStep, triggerOcr, hrun]
      rw [h] at hstep
      rw [hrun] at hstep
      exact Bool.noConfusion hstep
    | workerDone => rfl

/-- C4 witness: a double trigger keeps a single worker, and a trigger in the
Running state is the identity. -/
theorem C4_at_most_one_worker_witness :
    (captureRun [CaptureEvent.trigger true true,
      CaptureEvent.trigger true true]).activeWorkers ≤ 1 ∧
    triggerOcr true true { ocrRunning := true, activeWorkers := 1 } =
      { ocrRunning := true, activeWorkers := 1 } :=
  ⟨C4_at_most_one_worker.1 _, C4_at_most_one_worker.2.1 _ true true rfl⟩

/-- C5: when OCR succeeded with non-empty text, the cache missed and the
engine call raised `TranslationError(reason)`, the worker still emits the
`finished` signal (success), with the translated-text field set to the
in-band marker `"[<EngineName> Error: <reason>]"`. -/
theorem C5_translation_error_inband (cfg : WorkerConfig)
    (history : List (String × String)) (raw target : String)
    (eng : EngineSpec) (reason : String)
    (heng : cfg.engine = some eng)
    (hne : pyStrip raw ≠ "")
    (hmiss : buildHistoryLookup history (pyStrip raw) = none)
    (herr : eng.behavior (pyStrip raw) target = .translationError reason) :
    (workerRunFromOcr cfg history raw target).signal =
      .finished (pyStrip raw) ("[" ++ eng.name ++ " Error: " ++ reason ++ "]") := by
  simp [workerRunFromOcr, translationStep, hne, hmiss, heng, herr]

/-- C5 witness: a quota failure at concrete inputs still ends in `finished`. -/
theorem C5_translation_error_inband_witness :
    (workerRunFromOcr quotaConfig [] "hola" "en").signal =
      WorkerSignal.finished (pyStrip "hola")
        ("[" ++ quotaEngine.name ++ " Error: " ++ "QuotaExceeded" ++ "]") :=
  C5_translation_error_inband quotaConfig [] "hola" "en" quotaEngine "QuotaExceeded"
    rfl (by decide) rfl rfl

/-- C6: when the recognized text is non-empty and present in the history
snapshot handed to the worker, the translation engine is not invoked at all,
the translated text is the cached value and the cycle is marked as a cache
hit. -/
theorem C6_cache_hit_skips_engine (cfg : WorkerConfig)
    (history : List (String × String)) (raw target cachedValue : String)
    (hne : pyStrip raw ≠ "")
    (hhit : buildHistoryLookup history (pyStrip raw) = some cachedValue) :
    workerRunFromOcr cfg history raw target =
      { signal := .finished (pyStrip raw) cachedValue,
        cacheHit := true, engineCalled := false } := by
  simp [workerRunFromOcr, translationStep, hne, hhit]

/-- C6 witness: a concrete snapshot entry short-circuits the engine. -/
theorem C6_cache_hit_skips_engine_witness :
    workerRunFromOcr quotaConfig [("hola", "hello")] "hola" "en" =
      { signal := WorkerSignal.finished (pyStrip "hola") "hello",
        cacheHit := true, engineCalled := false } :=
  C6_cache_hit_skips_engine quotaConfig [("hola", "hello")] "hola" "en" "hello"
    (by decide) (by decide)

/-- C7: on worker completion the result is recorded into the history only for
non-empty recognized text, and `last_ocr_text` is updated only for non-empty
recognized text — an empty-text cycle leaves the whole completion state
untouched, so the last recognized text survives it. -/
theorem C7_completion_updates :
    ∀ (st : CompletionState) (ocrText translatedText : String),
    (ocrText = "" → onOcrWorkerDone st ocrText translatedText = st) ∧
    (ocrText ≠ "" →
      (onOcrWorkerDone st ocrText translatedText).lastOcrText = ocrText ∧
      (onOcrWorkerDone st ocrText translatedText).history =
        st.history.add_item ocrText translatedText) := by
  intro st o t
  constructor
  · intro h
    simp [onOcrWorkerDone, h]
  · intro h
    simp [onOcrWorkerDone, h]

/-- C7 witness: an empty-text completion is the identity; a non-empty one
stores the text. -/
theorem C7_completion_updates_witness :
    onOcrWorkerDone { history := HistoryManager.init 20, lastOcrText := "prev" } "" "x" =
      { history := HistoryManager.init 20, lastOcrText := "prev" } ∧
    (onOcrWorkerDone { history := HistoryManager.init 20, lastOcrText := "prev" }
      "hola" "hello").lastOcrText = "hola" :=
  ⟨(C7_completion_updates { history := HistoryManager.init 20, lastOcrText := "prev" }
      "" "x").1 rfl,
   ((C7_completion_updates { history := HistoryManager.init 20, lastOcrText := "prev" }
      "hola" "hello").2 (by decide)).1⟩

/-- C8: a capture cycle whose OCR provider returned empty or whitespace-only
text ends as a success: the `finished` signal fires with recognized text `""`
and translated text `""`, and the translation engine is never called. -/
theorem C8_empty_ocr_success (cfg : WorkerConfig)
    (history : List (String × String)) (raw target : String)
    (hws : ∀ c ∈ raw.data, isPyWhitespace c = true) :
    workerRunFromOcr cfg history raw target =
      { signal := .finished "" "", cacheHit := false, engineCalled := false } := by
  have h1 : raw.data.dropWhile isPyWhitespace = [] :=
    List.dropWhile_eq_nil_iff.mpr hws
  have hstrip : pyStrip raw = "" := by
    unfold pyStrip
    rw [h1]
    rfl
  simp [workerRunFromOcr, translationStep, hstrip]

/-- C8 witness: a whitespace-only OCR result at concrete inputs. -/
theorem C8_empty_ocr_success_witness :
    workerRunFromOcr quotaConfig [("hola", "hello")] " \n\t " "en" =
      { signal := WorkerSignal.finished "" "",
        cacheHit := false, engineCalled := false } :=
  C8_empty_ocr_success quotaConfig [("hola", "hello")] " \n\t " "en" (by decide)

/-- C9: the re-translation flow neither writes to nor reads from the
history: the state's history and last recognized text are unchanged by the
whole request, and the emitted signal is the same whatever history the state
holds (the worker is constructed without any cache data and performs no
lookup). -/
theorem C9_retranslation_cache_frame :
    ∀ (st : RetransState) (engine : Option EngineSpec) (engineKey target : String),
    (requestRetranslation st engine engineKey target).1.history = st.history ∧
    (requestRetranslation st engine engineKey target).1.lastOcrText = st.lastOcrText ∧
    (∀ h1 h2 : HistoryManager,
      (requestRetranslation { st with history := h1 } engine engineKey target).2 =
      (requestRetranslation { st with history := h2 } engine engineKey target).2) := by
  intro st engine key target
  refine ⟨?_, ?_, ?_⟩
  · simp only [requestRetranslation]
    split_ifs <;> rfl
  · simp only [requestRetranslation]
    split_ifs <;> rfl
  · intro h1 h2
    simp only [requestRetranslation]
    split_ifs <;> rfl

/-- C10: starting live mode arms the timer with
`max(1000, interval_sec * 1000)` milliseconds, which is never below one
second even for intervals smaller than one. -/
theorem C10_live_interval_min_1s (intervalSec : Int) (s : LiveModeState)
    (hidle : s.timerActive = false) :
    (startTimer true intervalSec s).1 =
      { timerActive := true, timerIntervalMs := max 1000 (intervalSec * 1000) } ∧
    1000 ≤ (startTimer true intervalSec s).1.timerIntervalMs := by
  constructor
  · simp [startTimer, hidle]
  · simp [startTimer, hidle]

/-- C10 witness: starting with a configured interval of 0 seconds still arms
a 1000 ms timer. -/
theorem C10_live_interval_min_1s_witness :
    (startTimer true 0 { timerActive := false, timerIntervalMs := 0 }).1 =
      { timerActive := true, timerIntervalMs := max 1000 (0 * 1000) } ∧
    1000 ≤ (startTimer true 0 { timerActive := false, timerIntervalMs := 0 }).1.timerIntervalMs :=
  C10_live_interval_min_1s 0 { timerActive := false, timerIntervalMs := 0 } rfl

end OperationUMA
